import Mathlib

/- Verification of the emotional-dynamics simulation script
   (src/emotional_simulation.py): shallow embedding of the four model
   right-hand sides, the script-level constants, the time-grid generation via
   numpy.linspace, the equilibrium computations, and a model of the
   scipy.integrate.odeint trajectory reporting loop. -/

namespace EmotionalDynamics

/-- Right-hand side of Model I (linear decay), `linear_decay` in the script:
dy/dt = -k * y. -/
def linear_decay (y t k : ℝ) : ℝ := -k * y

/-- Right-hand side of Model II (environmental forcing), `forced_response`:
dy/dt = -k * y + c. -/
def forced_response (y t k c : ℝ) : ℝ := -k * y + c

/-- Right-hand side of Model III (nonlinear regulation), `nonlinear_regulation`:
dy/dt = -k * y + a * y * (1 - y). -/
def nonlinear_regulation (y t k a : ℝ) : ℝ := -k * y + a * y * (1 - y)

/-- Right-hand side of Model IV (coupled interaction), `coupled_system`:
the Python function unpacks z = (x, y) and returns the pair
[dx/dt, dy/dt] = [-a * x + b * y, -c * y]. -/
def coupled_system (z : ℝ × ℝ) (t a b c : ℝ) : ℝ × ℝ :=
  (-a * z.1 + b * z.2, -c * z.2)

/-- Python float division: raises ZeroDivisionError when the divisor is zero,
otherwise returns the quotient. -/
noncomputable def pyDiv (x y : ℝ) : Except String ℝ :=
  if y = 0 then Except.error "ZeroDivisionError" else Except.ok (x / y)

/-- The equilibrium computation of the script, `equilibrium = c / k`
(line 45), as a function of the two coefficients. -/
noncomputable def equilibriumOf (c k : ℝ) : Except String ℝ := pyDiv c k

/-- The nontrivial-equilibrium computation of the script,
`stable_eq = 1 - (k_nonlin / a)` (line 75), as a function of the two
coefficients: Python evaluates the division first, then the subtraction. -/
noncomputable def stable_eqOf (k a : ℝ) : Except String ℝ :=
  (pyDiv k a).map (fun q => 1 - q)

/-- Real-valued samples of `numpy.linspace(start, stop, num)`: element i is
start + i * ((stop - start) / (num - 1)); for num = 1 the factor i = 0 makes
the single element start, matching numpy returning [start]. -/
noncomputable def linspaceList (start stop : ℝ) (num : ℕ) : List ℝ :=
  (List.range num).map (fun i : ℕ => start + (i : ℝ) * ((stop - start) / ((num : ℝ) - 1)))

/-- `numpy.linspace(start, stop, num)` as called by the script: numpy raises
ValueError when num is negative and performs no other validation on the
requested range. -/
noncomputable def linspace (start stop : ℝ) (num : ℤ) : Except String (List ℝ) :=
  if num < 0 then Except.error "ValueError: Number of samples must be non-negative"
  else Except.ok (linspaceList start stop num.toNat)

/-- A Python float value: finite, NaN, or a signed infinity. -/
inductive PyFloat : Type
  | finite (x : ℝ)
  | nan
  | inf
  | ninf

/-- Parameter construction as the script performs it: plain module-level
assignment of the named coefficients and the initial state (lines 15-16,
43-44, 71-73, 104-106). Python assignment imposes no validation, so the
construction succeeds on every input. -/
def mkParams (coeffs : List PyFloat) (init : List PyFloat) :
    Except String (List PyFloat × List PyFloat) :=
  Except.ok (coeffs, init)

/-- One trajectory sample: a (time, state) pair. -/
structure Sample (σ : Type) where
  time : ℝ
  state : σ

/-- Modelled from the spec: the internal stepping of `scipy.integrate.odeint`
(an external library, absent from the repository) advances the state from one
requested grid time to the next; it is abstracted as an arbitrary one-step
method step rhs y tprev tnext, and the reporting loop records one sample per
remaining grid time. -/
def advance {σ : Type} (step : (σ → ℝ → σ) → σ → ℝ → ℝ → σ)
    (rhs : σ → ℝ → σ) : σ → ℝ → List ℝ → List (Sample σ)
  | _, _, [] => []
  | y, tprev, tnext :: rest =>
    ⟨tnext, step rhs y tprev tnext⟩ :: advance step rhs (step rhs y tprev tnext) tnext rest

/-- Modelled from the spec: `odeint(rhs, y0, tgrid)` per the Integrator
contract of section 4.4 returns one sample per grid point, the first being
the initial state at the first grid time and the rest produced by the
internal stepping. -/
def integrate {σ : Type} (step : (σ → ℝ → σ) → σ → ℝ → ℝ → σ)
    (rhs : σ → ℝ → σ) (y0 : σ) : List ℝ → List (Sample σ)
  | [] => []
  | t0 :: ts => ⟨t0, y0⟩ :: advance step rhs y0 t0 ts

namespace Script

/-- Decay rate `k = 0.5` (line 15). -/
def k : ℝ := 0.5

/-- Initial intensity `y0 = 10.0` (line 16). -/
def y0 : ℝ := 10.0

/-- Forcing constant `c = 2.0` (line 43). -/
def c : ℝ := 2.0

/-- Forced-model initial state `y0_forced = 0.0` (line 44). -/
def y0_forced : ℝ := 0.0

/-- Model III decay rate `k_nonlin = 0.2` (line 71). -/
def k_nonlin : ℝ := 0.2

/-- Model III logistic coefficient `a = 0.8` (line 72). -/
def a : ℝ := 0.8

/-- `equilibrium = c / k` (line 45). -/
noncomputable def equilibrium : Except String ℝ := equilibriumOf c k

/-- `stable_eq = 1 - (k_nonlin / a)` (line 75). -/
noncomputable def stable_eq : Except String ℝ := stable_eqOf k_nonlin a

/-- Time grid `t = np.linspace(0, 20, 100)` (line 17). -/
noncomputable def t : Except String (List ℝ) := linspace 0 20 100

/-- Time grid `t_long = np.linspace(0, 30, 100)` (line 74). -/
noncomputable def t_long : Except String (List ℝ) := linspace 0 30 100

/-- Coupled-model parameters `params = (0.5, 0.5, 0.2)` (line 105). -/
def params : ℝ × ℝ × ℝ := (0.5, 0.5, 0.2)

/-- Coupled-model initial state `[5.0, 5.0]` (line 106). -/
def initial_state : ℝ × ℝ := (5.0, 5.0)

end Script

/-- Modelled from the spec: the trajectory values of
`y_linear = odeint(linear_decay, y0, t)` (line 20). odeint is an external
library solver; per the accuracy contract of section 4.4 it reproduces the
smooth solution of the initial-value problem, which for the linear decay
model is the closed form y(t) = y0 * exp(-k * t), sampled at every grid
point of `t = np.linspace(0, 20, 100)`. -/
noncomputable def y_linear : List ℝ :=
  (linspaceList 0 20 100).map (fun ti => Script.y0 * Real.exp (-Script.k * ti))

/-- C1 counterexample: at k = 0 and c = 2.0 the equilibrium computation
`c / k` of line 45 raises ZeroDivisionError instead of returning a soft
NoEquilibrium result, so the claim that it never raises is false. -/
theorem c1_counterexample :
    equilibriumOf 2 0 = Except.error "ZeroDivisionError" := by
  simp [equilibriumOf, pyDiv]

/-- C1 (amended): the equilibrium computation `c / k` is an unguarded Python
division: when the denominator k is exactly zero it raises ZeroDivisionError
rather than returning NoEquilibrium, and for every k different from zero it
returns c / k without raising. -/
theorem c1_equilibrium_unguarded_division (c k : ℝ) :
    (k = 0 → equilibriumOf c k = Except.error "ZeroDivisionError") ∧
    (k ≠ 0 → equilibriumOf c k = Except.ok (c / k)) := by
  constructor
  · intro hk
    simp [equilibriumOf, pyDiv, hk]
  · intro hk
    simp [equilibriumOf, pyDiv, hk]

/-- C1 witness: the amended behavior at the concrete inputs (c, k) = (2, 0),
which raises, and (c, k) = (3, 1), which returns the quotient. -/
theorem c1_witness :
    equilibriumOf 2 0 = Except.error "ZeroDivisionError" ∧
    equilibriumOf 3 1 = Except.ok (3 / 1) :=
  ⟨(c1_equilibrium_unguarded_division 2 0).1 rfl,
   (c1_equilibrium_unguarded_division 3 1).2 one_ne_zero⟩

/-- C2 counterexample: `np.linspace(0, 20, 1)` succeeds with the single
sample [0]; it does not fail with InvalidRange as the claim states. -/
theorem c2_counterexample : linspace 0 20 1 = Except.ok [0] := by
  have h1 : linspaceList 0 20 1 = [0] := by
    rw [linspaceList, show List.range 1 = [0] from rfl]
    norm_num
  simp [linspace, h1]

/-- C2 (amended): the time grids are produced by bare `np.linspace` calls,
which impose no count or range validation beyond rejecting a negative count:
every call with a non-negative count, including count = 1 and end below or
equal to start, returns a sequence of exactly count samples. -/
theorem c2_linspace_no_range_validation (s e : ℝ) (num : ℤ) (h : 0 ≤ num) :
    ∃ xs : List ℝ, linspace s e num = Except.ok xs ∧ xs.length = num.toNat := by
  refine ⟨linspaceList s e num.toNat, ?_, ?_⟩
  · simp [linspace, not_lt.mpr h]
  · rw [linspaceList, List.length_map, List.length_range]

/-- C2 witness: the amended behavior at the concrete call
`linspace 0 20 1`, which succeeds with one sample. -/
theorem c2_witness :
    ∃ xs : List ℝ, linspace 0 20 1 = Except.ok xs ∧ xs.length = (1 : ℤ).toNat :=
  c2_linspace_no_range_validation 0 20 1 (by decide)

/-- C3 counterexample: constructing a parameter set whose coefficient is NaN
succeeds by plain assignment; no InvalidParameter condition is raised. -/
theorem c3_counterexample :
    mkParams [PyFloat.nan] [PyFloat.finite 10] =
      Except.ok ([PyFloat.nan], [PyFloat.finite 10]) := rfl

/-- C3 (amended): parameter construction in the script is plain assignment
and performs no validation at all: it succeeds for every input, including
NaN and infinite coefficients, so it never fails with InvalidParameter; in
particular every construction with all-finite coefficients succeeds. -/
theorem c3_construction_never_fails (coeffs init : List PyFloat) :
    mkParams coeffs init = Except.ok (coeffs, init) := rfl

/-- C4: for every k different from zero the forced-response right-hand side
-k * y + c vanishes exactly at y = c / k, the equilibrium computation of
line 45 returns exactly this value, and for the script parameters k = 0.5 and
c = 2.0 the computed equilibrium is 4. -/
theorem c4_forced_response_equilibrium (k c y t : ℝ) (hk : k ≠ 0) :
    (forced_response y t k c = 0 ↔ y = c / k) ∧
    equilibriumOf c k = Except.ok (c / k) ∧
    Script.equilibrium = Except.ok 4 := by
  refine ⟨?_, ?_, ?_⟩
  · unfold forced_response
    rw [eq_div_iff hk]
    constructor
    · intro h
      linarith
    · intro h
      linarith
  · simp [equilibriumOf, pyDiv, hk]
  · rw [Script.equilibrium, Script.c, Script.k, equilibriumOf, pyDiv,
      if_neg (by norm_num : ¬ ((0.5 : ℝ) = 0))]
    norm_num

/-- C4 witness: the theorem instantiated at k = 1, c = 2, y = 5, t = 0. -/
theorem c4_witness :
    (forced_response 5 0 1 2 = 0 ↔ (5 : ℝ) = 2 / 1) ∧
    equilibriumOf 2 1 = Except.ok (2 / 1) ∧
    Script.equilibrium = Except.ok 4 :=
  c4_forced_response_equilibrium 1 2 5 0 one_ne_zero

/-- C5: for every a different from zero the nonlinear-regulation right-hand
side -k * y + a * y * (1 - y) vanishes exactly at y = 0 and at y = 1 - k / a,
the stable-equilibrium computation of line 75 returns exactly 1 - k / a, and
for the script parameters k_nonlin = 0.2 and a = 0.8 it returns 0.75. -/
theorem c5_nonlinear_equilibria (k a y t : ℝ) (ha : a ≠ 0) :
    (nonlinear_regulation y t k a = 0 ↔ y = 0 ∨ y = 1 - k / a) ∧
    stable_eqOf k a = Except.ok (1 - k / a) ∧
    Script.stable_eq = Except.ok 0.75 := by
  refine ⟨?_, ?_, ?_⟩
  · have hfac : nonlinear_regulation y t k a = y * ((a - k) - a * y) := by
      unfold nonlinear_regulation
      ring
    rw [hfac, mul_eq_zero]
    apply or_congr Iff.rfl
    constructor
    · intro h
      have hy : a * y = a - k := by linarith
      field_simp
      linarith
    · intro h
      rw [h]
      field_simp
  · simp [stable_eqOf, pyDiv, ha, Except.map]
  · rw [Script.stable_eq, Script.k_nonlin, Script.a, stable_eqOf, pyDiv,
      if_neg (by norm_num : ¬ ((0.8 : ℝ) = 0))]
    simp [Except.map]
    norm_num

/-- C5 witness: the theorem instantiated at k = 1, a = 2, y = 3, t = 0. -/
theorem c5_witness :
    (nonlinear_regulation 3 0 1 2 = 0 ↔ (3 : ℝ) = 0 ∨ (3 : ℝ) = 1 - 1 / 2) ∧
    stable_eqOf 1 2 = Except.ok (1 - 1 / 2) ∧
    Script.stable_eq = Except.ok 0.75 :=
  c5_nonlinear_equilibria 1 2 3 0 two_ne_zero

/-- C6 counterexample: with a = 0, b = 1 and c = 1 (so c is nonzero) the
state (1, 0) is a nonzero equilibrium of the coupled system, refuting the
claim that for every a and b the right-hand side vanishes only at (0, 0). -/
theorem c6_counterexample :
    coupled_system (1, 0) 0 0 1 1 = (0, 0) ∧
    ((1 : ℝ), (0 : ℝ)) ≠ ((0 : ℝ), (0 : ℝ)) ∧ (1 : ℝ) ≠ 0 := by
  refine ⟨?_, ?_, one_ne_zero⟩
  · unfold coupled_system
    norm_num
  · simp

/-- C6 (amended): for the coupled system with c nonzero and additionally a
nonzero, the state (0, 0) is the only equilibrium: the right-hand side is the
zero vector exactly at x = 0 and y = 0. -/
theorem c6_coupled_unique_equilibrium (a b c x y t : ℝ) (ha : a ≠ 0) (hc : c ≠ 0) :
    coupled_system (x, y) t a b c = (0, 0) ↔ x = 0 ∧ y = 0 := by
  unfold coupled_system
  rw [Prod.mk.injEq]
  constructor
  · rintro ⟨h1, h2⟩
    have hy : y = 0 := by
      rcases mul_eq_zero.1 h2 with h | h
      · exact absurd (neg_eq_zero.1 h) hc
      · exact h
    subst hy
    have h1x : -a * x = 0 := by
      simpa using h1
    have hx : x = 0 := by
      rcases mul_eq_zero.1 h1x with h | h
      · exact absurd (neg_eq_zero.1 h) ha
      · exact h
    exact ⟨hx, rfl⟩
  · rintro ⟨hx, hy⟩
    subst hx
    subst hy
    constructor <;> ring

/-- C6 witness: the amended theorem instantiated at a = 1, b = 0, c = 1,
state (0, 0), t = 0. -/
theorem c6_witness :
    coupled_system (0, 0) 0 1 0 1 = (0, 0) ↔ (0 : ℝ) = 0 ∧ (0 : ℝ) = 0 :=
  c6_coupled_unique_equilibrium 1 0 1 0 0 0 one_ne_zero one_ne_zero

/-- The sample times produced by the stepping loop are exactly the remaining
grid times, whatever the one-step method does. -/
theorem advance_map_time {σ : Type} (step : (σ → ℝ → σ) → σ → ℝ → ℝ → σ)
    (rhs : σ → ℝ → σ) :
    ∀ (ts : List ℝ) (y : σ) (tprev : ℝ),
      (advance step rhs y tprev ts).map Sample.time = ts
  | [], _, _ => rfl
  | tnext :: rest, y, tprev => by
    simp [advance, advance_map_time step rhs rest]

/-- C7: for every one-step method, right-hand side (with its parameters),
initial state and nonempty time grid, the trajectory returned by the
integrator has exactly one sample per grid point whose time is the
corresponding grid time, and its first sample carries the initial state. -/
theorem c7_integrator_contract {σ : Type}
    (step : (σ → ℝ → σ) → σ → ℝ → ℝ → σ) (rhs : σ → ℝ → σ) (y0 : σ)
    (t0 : ℝ) (ts : List ℝ) :
    (integrate step rhs y0 (t0 :: ts)).map Sample.time = t0 :: ts ∧
    (integrate step rhs y0 (t0 :: ts)).head? = some ⟨t0, y0⟩ := by
  constructor
  · simp [integrate, advance_map_time]
  · rfl

/-- C8: for the linear decay model with k = 0.5 and y0 = 10.0 on the grid
from 0 to 20, the trajectory value at the first grid point t = 0 equals 10,
and the values strictly decrease across every pair of consecutive sampled
times. -/
theorem c8_linear_decay_trajectory :
    y_linear.head? = some 10 ∧ List.Chain' (fun p q => q < p) y_linear := by
  have hy : y_linear = (List.range 100).map
      (fun i : ℕ => Script.y0 *
        Real.exp (-Script.k * ((0 : ℝ) + (i : ℝ) * ((20 - 0) / (((100 : ℕ) : ℝ) - 1))))) := by
    rw [y_linear, linspaceList, List.map_map]
    rfl
  constructor
  · rw [hy, show List.range 100 = 0 :: (List.range 99).map Nat.succ from
      List.range_succ_eq_map 99]
    simp only [List.map_cons, List.head?_cons, Option.some.injEq]
    norm_num [Script.y0, Script.k, Real.exp_zero]
  · rw [hy, List.chain'_map, show (100 : ℕ) = Nat.succ 99 from rfl,
      List.chain'_range_succ]
    intro m hm
    simp only [Script.y0, Script.k]
    apply mul_lt_mul_of_pos_left _ (by norm_num : (0 : ℝ) < 10.0)
    apply Real.exp_lt_exp.mpr
    push_cast
    norm_num

/-- C9: in the coupled system the second component of the returned derivative
pair, dy/dt = -c * y, does not depend on the x component of the state. -/
theorem c9_y_independent_of_x (x1 x2 y t a b c : ℝ) :
    (coupled_system (x1, y) t a b c).2 = (coupled_system (x2, y) t a b c).2 := rfl

/-- C10: the forced-response model with forcing constant zero degenerates to
the linear decay model: forced_response y t k 0 = linear_decay y t k. -/
theorem c10_forced_degenerates_to_linear (y t k : ℝ) :
    forced_response y t k 0 = linear_decay y t k := by
  simp [forced_response, linear_decay]

end EmotionalDynamics
